import Mathlib

/-!
Verification of the distributed task dispatcher (disttask framework dispatcher).

The definitions below are a shallow embedding of the dispatcher source:
  * `VerifyTaskStateTransform` embeds the transition predicate,
  * `updateTask` embeds the in-memory mutation, legality check and SQL retry
    loop of `dispatcher.updateTask` (storage results are supplied by an
    `UpdateBehavior` oracle; each performed storage write is recorded as a
    `StorageCall`),
  * `dispatchSubTask`, `handlePlanErr`, `onNextStage`, `onReverting` and
    `newDispatcher` embed the corresponding driver functions.

Go strings for task states become the inductive `TaskState`; Go `error`
values become `Option GoError`; `time.Now()` becomes an explicit `now`
argument; strategy callback results (`OnNextStage`, `GetEligibleInstances`,
subtask counts) are passed in as `Except` values since the strategies are
pluggable.
-/

namespace DistDispatch

/-- Task states (the Go string constants `proto.TaskState*`). -/
inductive TaskState where
  | pending
  | running
  | succeed
  | reverting
  | reverted
  | failed
  | revertFailed
  | cancelling
  | canceled
  | pausing
  | paused
  | resuming
  | revertPending
deriving DecidableEq, BEq, Repr, Fintype, Inhabited

/-- Go `error` values produced or observed by the dispatcher. -/
inductive GoError where
  | msg (s : String)
  | invalidTransform (src dst : TaskState)
deriving DecidableEq, Repr

/-- Fields of `infosync.ServerInfo` used by the dispatcher. -/
structure ServerInfo where
  id : String
  ip : String
  port : Nat
deriving DecidableEq, Repr, Inhabited

/-- Subtask meta bytes. -/
abbrev TaskMeta := List Nat

/-- Fields of `proto.Task` used by the dispatcher. -/
structure Task where
  id : Int
  key : String
  taskType : String
  state : TaskState
  step : Int
  concurrency : Nat
  startTime : Nat
  stateUpdateTime : Nat
  error : Option GoError
deriving DecidableEq, Repr, Inhabited

/-- Fields of `proto.Subtask` used by the dispatcher. -/
structure Subtask where
  taskID : Int
  taskType : String
  schedulerID : String
  meta : TaskMeta
deriving DecidableEq, Repr, Inhabited

/-- Constant `DefaultSubtaskConcurrency`. -/
def DefaultSubtaskConcurrency : Nat := 16

/-- Constant `MaxSubtaskConcurrency`. -/
def MaxSubtaskConcurrency : Nat := 256

/-- Variable `nonRetrySQLTime` (one-shot SQL attempt count). -/
def nonRetrySQLTime : Nat := 1

/-- The transition-rule table of `VerifyTaskStateTransform` (the `rules` map). -/
def transformRules : TaskState → List TaskState
  | .pending => [.running, .cancelling, .pausing, .succeed, .failed]
  | .running => [.succeed, .reverting, .failed, .cancelling, .pausing]
  | .succeed => []
  | .reverting => [.reverted]
  | .failed => []
  | .revertFailed => []
  | .cancelling => [.reverting]
  | .canceled => []
  | .pausing => [.paused]
  | .paused => [.resuming]
  | .resuming => [.running]
  | .revertPending => []
  | .reverted => []

/-- Predicate `VerifyTaskStateTransform` verifies whether the task state transform is
valid: identity transitions are accepted, otherwise the target must be in the
rule table entry of the source state. -/
def VerifyTaskStateTransform (src dst : TaskState) : Bool :=
  if src = dst then true
  else (transformRules src).contains dst

/-- Modelled from the spec: `disttaskutil.GenerateExecID` lives in
`util/disttask`, which is not among the provided sources. Spec section 4.2:
the canonical `ip:port` form of a server, with an IPv6 address wrapped in
brackets. -/
def GenerateExecID (ip : String) (port : Nat) : String :=
  if ip.contains ':' then "[" ++ ip ++ "]:" ++ toString port
  else ip ++ ":" ++ toString port

/-- Modelled from the spec: `proto.NewSubtask` is outside the provided
sources; per spec section 3 it builds a subtask row from the task id, the
task type, the target scheduler id and the meta bytes. -/
def NewSubtask (taskID : Int) (tp : String) (schedulerID : String) (meta : TaskMeta) : Subtask :=
  { taskID := taskID, taskType := tp, schedulerID := schedulerID, meta := meta }

/-- One performed call of the storage primitive
`UpdateGlobalTaskAndAddSubTasks(task, newSubtasks, prevState)`. -/
structure StorageCall where
  task : Task
  newSubtasks : List Subtask
  prevState : TaskState
deriving DecidableEq, Repr

/-- Oracle for the storage backend: the i-th attempt of
`UpdateGlobalTaskAndAddSubTasks` returns `(err, retryable)`. -/
abbrev UpdateBehavior := Nat → Option GoError × Bool

/-- The SQL retry loop inside `updateTask`: attempt up to `fuel` times,
breaking as soon as an attempt succeeds or reports a non-retryable error.
Returns the final `err` value together with the number of attempts made.
`carried` is the value of the Go `err` variable before the loop body runs
(`nil` initially). -/
def updateAttemptLoop (beh : UpdateBehavior) : Option GoError → Nat → Nat → Option GoError × Nat
  | carried, _, 0 => (carried, 0)
  | _, i, fuel + 1 =>
    let r := beh i
    if r.1.isNone || !r.2 then (r.1, 1)
    else
      let rest := updateAttemptLoop beh r.1 (i + 1) fuel
      (rest.1, rest.2 + 1)

/-- Result of `updateTask`: the mutated in-memory task, the returned error,
and the storage calls that were performed. -/
structure UpdateTaskResult where
  task : Task
  err : Option GoError
  calls : List StorageCall
deriving Repr

/-- Embedding of `dispatcher.updateTask`: remember the previous state, assign the target
state to the in-memory task, reject the transition if
`VerifyTaskStateTransform` fails (without any storage write), otherwise run
the retry loop of `UpdateGlobalTaskAndAddSubTasks`. -/
def updateTask (beh : UpdateBehavior) (task : Task) (taskState : TaskState)
    (newSubTasks : List Subtask) (retryTimes : Nat) : UpdateTaskResult :=
  if VerifyTaskStateTransform task.state taskState then
    { task := { task with state := taskState },
      err := (updateAttemptLoop beh none 0 retryTimes).1,
      calls := List.replicate (updateAttemptLoop beh none 0 retryTimes).2
        { task := { task with state := taskState }, newSubtasks := newSubTasks,
          prevState := task.state } }
  else
    { task := { task with state := taskState },
      err := some (GoError.invalidTransform task.state taskState), calls := [] }

/-- The dispatcher fields the embedded driver functions read and write. -/
structure DispState where
  task : Task
  taskNodes : List String
deriving Repr

/-- Result of a driver step: the mutated in-memory task, the (possibly
updated) `taskNodes` cache, the returned error, and the storage calls. -/
structure DispatchResult where
  task : Task
  taskNodes : List String
  err : Option GoError
  calls : List StorageCall
deriving Repr

/-- The subtask-construction loop of `dispatchSubTask`: meta `i` is assigned
to the eligible instance at index `i mod len(serverNodes)`. -/
def assignSubtasks (task : Task) (serverNodes : List ServerInfo) (metas : List TaskMeta) :
    List Subtask :=
  (List.range metas.length).map fun i =>
    let pos := i % serverNodes.length
    let node := serverNodes.getD pos default
    NewSubtask task.id task.taskType (GenerateExecID node.ip node.port) (metas.getD i [])

/-- Embedding of `dispatcher.dispatchSubTask`: normalize the task concurrency, compute the
retry budget (one-shot for a Pending task), persist Succeed when there are no
metas, otherwise fan the metas out round-robin over the eligible instances
and persist Running together with the new subtasks.  `retrySQLTimes` is the
package-level variable, `eligible` the result of
`impl.GetEligibleInstances`, `now` the wall clock. -/
def dispatchSubTask (retrySQLTimes : Nat) (beh : UpdateBehavior)
    (eligible : Except GoError (List ServerInfo)) (now : Nat)
    (st : DispState) (metas : List TaskMeta) : DispatchResult :=
  let task0 := st.task
  let c1 := if task0.concurrency = 0 then DefaultSubtaskConcurrency else task0.concurrency
  let c2 := if c1 > MaxSubtaskConcurrency then MaxSubtaskConcurrency else c1
  let task1 : Task := { task0 with concurrency := c2 }
  let retryTimes := if task1.state = TaskState.pending then nonRetrySQLTime else retrySQLTimes
  let task2 : Task :=
    if task1.state = TaskState.pending then
      { task1 with startTime := now, stateUpdateTime := now }
    else task1
  if metas.isEmpty then
    let task3 : Task := { task2 with stateUpdateTime := now }
    let r := updateTask beh task3 TaskState.succeed [] retryTimes
    { task := r.task, taskNodes := st.taskNodes, err := r.err, calls := r.calls }
  else
    match eligible with
    | Except.error e =>
      { task := task2, taskNodes := st.taskNodes, err := some e, calls := [] }
    | Except.ok serverNodes =>
      if serverNodes.length = 0 then
        { task := task2, taskNodes := st.taskNodes,
          err := some (GoError.msg "no available TiDB node to dispatch subtasks"),
          calls := [] }
      else
        let taskNodes := serverNodes.map fun n => GenerateExecID n.ip n.port
        let subTasks := assignSubtasks task2 serverNodes metas
        let r := updateTask beh task2 TaskState.running subTasks retrySQLTimes
        { task := r.task, taskNodes := taskNodes, err := r.err, calls := r.calls }

/-- Embedding of `dispatcher.handlePlanErr`: a retryable plan error is returned untouched;
a non-retryable one is stamped into `task.Error` and the task is moved to
Failed. -/
def handlePlanErr (retrySQLTimes : Nat) (beh : UpdateBehavior)
    (isRetryableErr : GoError → Bool) (st : DispState) (e : GoError) : DispatchResult :=
  if isRetryableErr e then
    { task := st.task, taskNodes := st.taskNodes, err := some e, calls := [] }
  else
    let task1 : Task := { st.task with error := some e }
    let r := updateTask beh task1 TaskState.failed [] retrySQLTimes
    { task := r.task, taskNodes := st.taskNodes, err := r.err, calls := r.calls }

/-- Embedding of `dispatcher.onNextStage`: run the strategy's `OnNextStage` (its outcome is
the `planResult` argument) and either handle the plan error or dispatch the
produced metas. -/
def onNextStage (retrySQLTimes : Nat) (beh : UpdateBehavior)
    (isRetryableErr : GoError → Bool) (eligible : Except GoError (List ServerInfo))
    (now : Nat) (st : DispState) (planResult : Except GoError (List TaskMeta)) :
    DispatchResult :=
  match planResult with
  | Except.error e => handlePlanErr retrySQLTimes beh isRetryableErr st e
  | Except.ok metas => dispatchSubTask retrySQLTimes beh eligible now st metas

/-- Result of `onReverting`: mutated task, returned error, storage calls, and
whether the strategy's `OnTick` hook was invoked. -/
structure RevertResult where
  task : Task
  err : Option GoError
  calls : List StorageCall
  onTickCalled : Bool
deriving Repr

/-- Embedding of `dispatcher.onReverting`: the argument `cntResult` is the outcome of
`GetSubtaskInStatesCnt(task.ID, RevertPending, Reverting)`.  A failed count
query is returned as the error; a zero count persists Reverted; otherwise
`OnTick` runs and the state is kept. -/
def onReverting (retrySQLTimes : Nat) (beh : UpdateBehavior)
    (st : DispState) (cntResult : Except GoError Nat) : RevertResult :=
  match cntResult with
  | Except.error e => { task := st.task, err := some e, calls := [], onTickCalled := false }
  | Except.ok cnt =>
    if cnt = 0 then
      let r := updateTask beh st.task TaskState.reverted [] retrySQLTimes
      { task := r.task, err := r.err, calls := r.calls, onTickCalled := false }
    else
      { task := st.task, err := none, calls := [], onTickCalled := true }

/-- Result of `newDispatcher`: the constructed dispatcher (if any), the
returned error, and the storage calls. -/
structure NewDispatcherResult where
  dsp : Option DispState
  err : Option GoError
  calls : List StorageCall
deriving Repr

/-- Embedding of `dispatcher.newDispatcher`: the argument `registered` is whether
`GetTaskDispatcher(task.Type)` found a registered strategy.  Without one the
task is stamped with the "unsupported task type" error and moved to Failed
with `retrySQLTimes` attempts, and no dispatcher is returned. -/
def newDispatcher (retrySQLTimes : Nat) (beh : UpdateBehavior)
    (registered : Bool) (task : Task) : NewDispatcherResult :=
  if registered then
    { dsp := some { task := task, taskNodes := [] }, err := none, calls := [] }
  else
    let task1 : Task := { task with error := some (GoError.msg "unsupported task type") }
    let r := updateTask beh task1 TaskState.failed [] retrySQLTimes
    { dsp := none, err := r.err, calls := r.calls }

/-- A concrete pending task used by witnesses. -/
def sampleTask : Task :=
  { id := 1, key := "k1", taskType := "example", state := TaskState.pending,
    step := 0, concurrency := 0, startTime := 0, stateUpdateTime := 0, error := none }

/-- A concrete running task used by witnesses. -/
def sampleRunningTask : Task := { sampleTask with state := TaskState.running }

/-- A concrete reverting task used by witnesses. -/
def sampleRevertingTask : Task := { sampleTask with state := TaskState.reverting }

/-- A concrete server used by witnesses. -/
def sampleNode : ServerInfo := { id := "s1", ip := "1.1.1.1", port := 4000 }

/-- A second concrete server used by witnesses. -/
def sampleNode2 : ServerInfo := { id := "s2", ip := "1.1.1.2", port := 4000 }

/-- A storage oracle whose every attempt fails with a retryable error. -/
def behFail : UpdateBehavior := fun _ => (some (GoError.msg "lock wait timeout"), true)

/-- A storage oracle whose every attempt succeeds. -/
def behOK : UpdateBehavior := fun _ => (none, true)

end DistDispatch

namespace DistDispatch

/-- The legal distinct-state pairs listed by the specification. -/
def specLegalPairs : List (TaskState × TaskState) :=
  [(.pending, .running), (.pending, .cancelling), (.pending, .pausing),
   (.pending, .succeed), (.pending, .failed),
   (.running, .succeed), (.running, .reverting), (.running, .failed),
   (.running, .cancelling), (.running, .pausing),
   (.reverting, .reverted),
   (.cancelling, .reverting),
   (.pausing, .paused),
   (.paused, .resuming),
   (.resuming, .running)]

/-- All thirteen task states. -/
def allTaskStates : List TaskState :=
  [.pending, .running, .succeed, .reverting, .reverted, .failed,
   .revertFailed, .cancelling, .canceled, .pausing, .paused, .resuming,
   .revertPending]

/-- The states the specification calls terminal sinks. -/
def sinkStates : List TaskState :=
  [.succeed, .failed, .reverted, .canceled, .revertFailed, .revertPending]

/-! Helper lemmas about the SQL retry loop and `updateTask`. -/

theorem updateAttemptLoop_count_le (beh : UpdateBehavior) :
    ∀ (carried : Option GoError) (i fuel : Nat),
      (updateAttemptLoop beh carried i fuel).2 ≤ fuel := by
  intro carried i fuel
  induction fuel generalizing carried i with
  | zero => simp [updateAttemptLoop]
  | succ n ih =>
    simp only [updateAttemptLoop]
    split
    · exact Nat.succ_le_succ (Nat.zero_le n)
    · exact Nat.succ_le_succ (ih _ _)

theorem updateAttemptLoop_count_pos (beh : UpdateBehavior) (carried : Option GoError)
    (i fuel : Nat) (h : 0 < fuel) : 0 < (updateAttemptLoop beh carried i fuel).2 := by
  cases fuel with
  | zero => exact absurd h (Nat.lt_irrefl 0)
  | succ n =>
    simp only [updateAttemptLoop]
    split
    · exact Nat.zero_lt_one
    · exact Nat.succ_pos _

theorem updateAttemptLoop_count_all_fail (beh : UpdateBehavior)
    (hbeh : ∀ i, ((beh i).1).isSome = true ∧ (beh i).2 = true) :
    ∀ (carried : Option GoError) (i fuel : Nat),
      (updateAttemptLoop beh carried i fuel).2 = fuel := by
  intro carried i fuel
  induction fuel generalizing carried i with
  | zero => simp [updateAttemptLoop]
  | succ n ih =>
    have h1 := (hbeh i).1
    have h2 := (hbeh i).2
    simp only [updateAttemptLoop]
    rw [if_neg]
    · simp [ih]
    · simp [Option.isNone_iff_eq_none, h2]
      intro hnone
      rw [hnone] at h1
      simp at h1

theorem updateTask_task_eq (beh : UpdateBehavior) (t : Task) (s : TaskState)
    (subs : List Subtask) (n : Nat) :
    (updateTask beh t s subs n).task = { t with state := s } := by
  unfold updateTask
  split <;> rfl

theorem updateTask_calls_elem (beh : UpdateBehavior) (t : Task) (s : TaskState)
    (subs : List Subtask) (n : Nat) :
    ∀ c ∈ (updateTask beh t s subs n).calls,
      c = { task := { t with state := s }, newSubtasks := subs, prevState := t.state } := by
  intro c hc
  unfold updateTask at hc
  split at hc
  · exact List.eq_of_mem_replicate hc
  · simp at hc

theorem updateTask_calls_length_le (beh : UpdateBehavior) (t : Task) (s : TaskState)
    (subs : List Subtask) (n : Nat) :
    (updateTask beh t s subs n).calls.length ≤ n := by
  unfold updateTask
  split
  · simpa using updateAttemptLoop_count_le beh none 0 n
  · simp

theorem updateTask_calls_ne_nil (beh : UpdateBehavior) (t : Task) (s : TaskState)
    (subs : List Subtask) (n : Nat)
    (hv : VerifyTaskStateTransform t.state s = true) (hn : 0 < n) :
    (updateTask beh t s subs n).calls ≠ [] := by
  have hpos := updateAttemptLoop_count_pos beh none 0 n hn
  unfold updateTask
  rw [if_pos hv]
  intro hcon
  have h2 := congrArg List.length hcon
  simp at h2
  omega

theorem updateTask_calls_length_all_fail (beh : UpdateBehavior) (t : Task) (s : TaskState)
    (subs : List Subtask) (n : Nat)
    (hv : VerifyTaskStateTransform t.state s = true)
    (hbeh : ∀ i, ((beh i).1).isSome = true ∧ (beh i).2 = true) :
    (updateTask beh t s subs n).calls.length = n := by
  unfold updateTask
  rw [if_pos hv]
  simp [updateAttemptLoop_count_all_fail beh hbeh]

/-- Claim C10: `updateTask` assigns the target state to the in-memory task
before checking legality; on a rejected transition it returns the
"invalid task state transform" error, performs no storage write, and leaves
the in-memory task holding the rejected target state (which differs from the
previous state). -/
theorem updateTask_rejected_keeps_target (beh : UpdateBehavior) (t : Task)
    (target : TaskState) (subs : List Subtask) (retryTimes : Nat)
    (hreject : VerifyTaskStateTransform t.state target = false) :
    (updateTask beh t target subs retryTimes).err
        = some (GoError.invalidTransform t.state target)
    ∧ (updateTask beh t target subs retryTimes).calls = []
    ∧ (updateTask beh t target subs retryTimes).task.state = target
    ∧ t.state ≠ target := by
  have hne : t.state ≠ target := by
    intro heq
    rw [heq] at hreject
    simp [VerifyTaskStateTransform] at hreject
  refine ⟨?_, ?_, ?_, hne⟩
  · unfold updateTask
    rw [if_neg (by simp [hreject])]
  · unfold updateTask
    rw [if_neg (by simp [hreject])]
  · rw [updateTask_task_eq]

/-- Witness for claim C10 at a concrete input: a Pending task asked to move
to Reverting (an illegal transition per the table and the repository's own
test). -/
theorem updateTask_rejected_keeps_target_witness :
    VerifyTaskStateTransform sampleTask.state TaskState.reverting = false
    ∧ ((updateTask behOK sampleTask TaskState.reverting [] 3).err
          = some (GoError.invalidTransform sampleTask.state TaskState.reverting)
        ∧ (updateTask behOK sampleTask TaskState.reverting [] 3).calls = []
        ∧ (updateTask behOK sampleTask TaskState.reverting [] 3).task.state
            = TaskState.reverting
        ∧ sampleTask.state ≠ TaskState.reverting) :=
  ⟨by decide, updateTask_rejected_keeps_target behOK sampleTask TaskState.reverting [] 3
    (by decide)⟩

/-- Claim C8: before dispatching, `dispatchSubTask` normalizes the task's
concurrency: 0 becomes `DefaultSubtaskConcurrency` (16), any value above
`MaxSubtaskConcurrency` is clamped to 256, and any other value is kept. -/
theorem dispatchSubTask_concurrency_normalization :
    DefaultSubtaskConcurrency = 16 ∧ MaxSubtaskConcurrency = 256
    ∧ ∀ (retrySQLTimes : Nat) (beh : UpdateBehavior)
        (eligible : Except GoError (List ServerInfo)) (now : Nat)
        (st : DispState) (metas : List TaskMeta),
        (dispatchSubTask retrySQLTimes beh eligible now st metas).task.concurrency
          = if st.task.concurrency = 0 then DefaultSubtaskConcurrency
            else if st.task.concurrency > MaxSubtaskConcurrency then MaxSubtaskConcurrency
            else st.task.concurrency := by
  refine ⟨rfl, rfl, ?_⟩
  intro retrySQLTimes beh eligible now st metas
  unfold dispatchSubTask
  cases eligible <;>
    simp only [updateTask_task_eq] <;>
    split_ifs <;>
    simp_all [DefaultSubtaskConcurrency, MaxSubtaskConcurrency]

/-- Claim C2 counterexample: with the package retry budget set to 3 and a
storage oracle that always fails retryably, dispatching one meta for a
Pending task performs 3 storage attempts for the Pending to Running persist,
not the single attempt (`nonRetrySQLTime = 1`) the claim states: the final
`updateTask` call of `dispatchSubTask` passes `retrySQLTimes`, not the
one-shot budget computed for Pending tasks. -/
theorem pending_running_persist_counterexample :
    nonRetrySQLTime = 1
    ∧ (dispatchSubTask 3 behFail (Except.ok [sampleNode]) 0
        { task := sampleTask, taskNodes := [] } [[1]]).calls.length = 3 := by
  exact ⟨rfl, by decide⟩

/-- Claim C2 (amended): the one-shot budget `nonRetrySQLTime = 1` computed
for a Pending task is applied only to the empty-metas persist (Pending to
Succeed); the Pending to Running persist together with the new subtask rows
uses the configured `retrySQLTimes`, exactly like persists from non-Pending
states (with an always-retryably-failing storage oracle it makes exactly
`retrySQLTimes` attempts). -/
theorem pending_persist_retry_counts (retrySQLTimes : Nat) (beh : UpdateBehavior)
    (now : Nat) (st : DispState) (metas : List TaskMeta) (serverNodes : List ServerInfo)
    (hpending : st.task.state = TaskState.pending) :
    (metas = [] →
      (dispatchSubTask retrySQLTimes beh (Except.ok serverNodes) now st metas).calls.length
        ≤ nonRetrySQLTime)
    ∧ (metas ≠ [] → serverNodes ≠ [] →
        (∀ i, ((beh i).1).isSome = true ∧ (beh i).2 = true) →
        (dispatchSubTask retrySQLTimes beh (Except.ok serverNodes) now st metas).calls.length
          = retrySQLTimes) := by
  constructor
  · intro hm
    subst hm
    unfold dispatchSubTask
    simp only [hpending, List.isEmpty_nil, if_pos rfl, reduceIte]
    exact updateTask_calls_length_le _ _ _ _ _
  · intro hm hn hbeh
    have hie : metas.isEmpty = false := by
      cases metas with
      | nil => exact absurd rfl hm
      | cons a l => rfl
    have hlen : ¬ serverNodes.length = 0 := by
      cases serverNodes with
      | nil => exact absurd rfl hn
      | cons a l => simp
    unfold dispatchSubTask
    simp only [hpending, hie, Bool.false_eq_true, if_false, reduceIte, if_neg hlen]
    apply updateTask_calls_length_all_fail _ _ _ _ _ _ hbeh
    simp [hpending]
    decide

/-- Witness for claim C2 at concrete inputs: a Pending task, one eligible
node, retry budget 2, an always-retryably-failing oracle. -/
theorem pending_persist_retry_counts_witness :
    ({ task := sampleTask, taskNodes := [] } : DispState).task.state = TaskState.pending
    ∧ (([] : List TaskMeta) = [] →
        (dispatchSubTask 2 behFail (Except.ok [sampleNode]) 0
          { task := sampleTask, taskNodes := [] } []).calls.length ≤ nonRetrySQLTime)
    ∧ (([[1]] : List TaskMeta) ≠ [] → [sampleNode] ≠ [] →
        (∀ i, ((behFail i).1).isSome = true ∧ (behFail i).2 = true) →
        (dispatchSubTask 2 behFail (Except.ok [sampleNode]) 0
          { task := sampleTask, taskNodes := [] } [[1]]).calls.length = 2) := by
  refine ⟨by decide, ?_, ?_⟩
  · exact (pending_persist_retry_counts 2 behFail 0
      { task := sampleTask, taskNodes := [] } [] [sampleNode] (by decide)).1
  · exact (pending_persist_retry_counts 2 behFail 0
      { task := sampleTask, taskNodes := [] } [[1]] [sampleNode] (by decide)).2

/-- Claim C3 counterexample: with the retry budget set to 3 and an
always-retryably-failing storage oracle, constructing a driver for an
unregistered task type makes 3 storage attempts for the Pending to Failed
persist; `newDispatcher` passes `retrySQLTimes`, not a one-shot budget. -/
theorem unsupported_type_oneshot_counterexample :
    nonRetrySQLTime = 1
    ∧ (newDispatcher 3 behFail false sampleTask).calls.length = 3 := by
  exact ⟨rfl, by decide⟩

/-- Claim C3 (amended): for a task whose type has no registered strategy,
`newDispatcher` records the error "unsupported task type" on the task,
persists the Pending to Failed transition using the configured
`retrySQLTimes` retry budget (not a one-shot write), and returns no
dispatcher, so the schedule loop is never entered. -/
theorem newDispatcher_unregistered_spec (retrySQLTimes : Nat) (beh : UpdateBehavior)
    (task : Task) (hpending : task.state = TaskState.pending) :
    (newDispatcher retrySQLTimes beh false task).dsp = none
    ∧ (∀ c ∈ (newDispatcher retrySQLTimes beh false task).calls,
        c.task.state = TaskState.failed
        ∧ c.task.error = some (GoError.msg "unsupported task type")
        ∧ c.prevState = TaskState.pending
        ∧ c.newSubtasks = [])
    ∧ (1 ≤ retrySQLTimes → (newDispatcher retrySQLTimes beh false task).calls ≠ [])
    ∧ ((∀ i, ((beh i).1).isSome = true ∧ (beh i).2 = true) →
        (newDispatcher retrySQLTimes beh false task).calls.length = retrySQLTimes) := by
  have hv : VerifyTaskStateTransform
      ({ task with error := some (GoError.msg "unsupported task type") } : Task).state
      TaskState.failed = true := by
    simp [hpending]
    decide
  refine ⟨?_, ?_, ?_, ?_⟩
  · unfold newDispatcher
    simp
  · intro c hc
    unfold newDispatcher at hc
    simp only [Bool.false_eq_true, if_false, reduceIte] at hc
    have h := updateTask_calls_elem _ _ _ _ _ c hc
    subst h
    simp [hpending]
  · intro hr
    unfold newDispatcher
    simp only [Bool.false_eq_true, if_false, reduceIte]
    exact updateTask_calls_ne_nil _ _ _ _ _ hv hr
  · intro hbeh
    unfold newDispatcher
    simp only [Bool.false_eq_true, if_false, reduceIte]
    exact updateTask_calls_length_all_fail _ _ _ _ _ hv hbeh

/-- Witness for claim C3 at a concrete input: a Pending task with no
registered strategy, retry budget 2, always-retryably-failing oracle. -/
theorem newDispatcher_unregistered_spec_witness :
    sampleTask.state = TaskState.pending
    ∧ ((newDispatcher 2 behFail false sampleTask).dsp = none
        ∧ (∀ c ∈ (newDispatcher 2 behFail false sampleTask).calls,
            c.task.state = TaskState.failed
            ∧ c.task.error = some (GoError.msg "unsupported task type")
            ∧ c.prevState = TaskState.pending
            ∧ c.newSubtasks = [])
        ∧ (1 ≤ 2 → (newDispatcher 2 behFail false sampleTask).calls ≠ [])
        ∧ ((∀ i, ((behFail i).1).isSome = true ∧ (behFail i).2 = true) →
            (newDispatcher 2 behFail false sampleTask).calls.length = 2)) :=
  ⟨by decide, newDispatcher_unregistered_spec 2 behFail sampleTask (by decide)⟩

/-- Claim C4: when the strategy's `OnNextStage` returns an error,
`handlePlanErr` returns it untouched when `IsRetryableErr` reports true
(no task mutation, no storage write); otherwise it stamps the error into
`task.Error` and persists the transition to Failed. -/
theorem handlePlanErr_spec (retrySQLTimes : Nat) (beh : UpdateBehavior)
    (isR : GoError → Bool) (st : DispState) (e : GoError) :
    (isR e = true →
      handlePlanErr retrySQLTimes beh isR st e
        = { task := st.task, taskNodes := st.taskNodes, err := some e, calls := [] })
    ∧ (isR e = false →
        (handlePlanErr retrySQLTimes beh isR st e).task.error = some e
        ∧ (∀ c ∈ (handlePlanErr retrySQLTimes beh isR st e).calls,
            c.task.state = TaskState.failed ∧ c.task.error = some e
            ∧ c.newSubtasks = [] ∧ c.prevState = st.task.state)
        ∧ (st.task.state = TaskState.pending → 1 ≤ retrySQLTimes →
            (handlePlanErr retrySQLTimes beh isR st e).calls ≠ [])) := by
  constructor
  · intro hr
    unfold handlePlanErr
    rw [if_pos hr]
  · intro hr
    have hred : handlePlanErr retrySQLTimes beh isR st e
        = { task := (updateTask beh { st.task with error := some e } TaskState.failed []
              retrySQLTimes).task,
            taskNodes := st.taskNodes,
            err := (updateTask beh { st.task with error := some e } TaskState.failed []
              retrySQLTimes).err,
            calls := (updateTask beh { st.task with error := some e } TaskState.failed []
              retrySQLTimes).calls } := by
      unfold handlePlanErr
      rw [if_neg (by simp [hr])]
    refine ⟨?_, ?_, ?_⟩
    · rw [hred, updateTask_task_eq]
    · intro c hc
      rw [hred] at hc
      have h := updateTask_calls_elem _ _ _ _ _ c hc
      subst h
      simp
    · intro hp hr1
      rw [hred]
      simp only [ne_eq]
      apply updateTask_calls_ne_nil _ _ _ _ _ _ hr1
      simp [hp]
      decide

/-- Witness for claim C4 at concrete inputs: both a retryable and a
non-retryable plan error on a Pending task. -/
theorem handlePlanErr_spec_witness :
    ((fun _ => true : GoError → Bool) (GoError.msg "boom") = true →
      handlePlanErr 2 behOK (fun _ => true) { task := sampleTask, taskNodes := [] }
          (GoError.msg "boom")
        = { task := sampleTask, taskNodes := [], err := some (GoError.msg "boom"),
            calls := [] })
    ∧ ((fun _ => false : GoError → Bool) (GoError.msg "boom") = false →
        (handlePlanErr 2 behOK (fun _ => false) { task := sampleTask, taskNodes := [] }
            (GoError.msg "boom")).task.error = some (GoError.msg "boom")
        ∧ (∀ c ∈ (handlePlanErr 2 behOK (fun _ => false)
              { task := sampleTask, taskNodes := [] } (GoError.msg "boom")).calls,
            c.task.state = TaskState.failed ∧ c.task.error = some (GoError.msg "boom")
            ∧ c.newSubtasks = []
            ∧ c.prevState = ({ task := sampleTask, taskNodes := [] } : DispState).task.state)
        ∧ (({ task := sampleTask, taskNodes := [] } : DispState).task.state
              = TaskState.pending → 1 ≤ 2 →
            (handlePlanErr 2 behOK (fun _ => false)
              { task := sampleTask, taskNodes := [] } (GoError.msg "boom")).calls ≠ [])) :=
  ⟨(handlePlanErr_spec 2 behOK (fun _ => true)
      { task := sampleTask, taskNodes := [] } (GoError.msg "boom")).1,
   (handlePlanErr_spec 2 behOK (fun _ => false)
      { task := sampleTask, taskNodes := [] } (GoError.msg "boom")).2⟩

/-- Claim C6: when `OnNextStage` returns an empty meta list and no error,
the driver persists the task state to Succeed with no subtasks; the previous
state recorded in the persist is the task's current state (Pending or
Running). -/
theorem empty_metas_succeed (retrySQLTimes : Nat) (beh : UpdateBehavior)
    (isR : GoError → Bool) (eligible : Except GoError (List ServerInfo)) (now : Nat)
    (st : DispState)
    (hstate : st.task.state = TaskState.pending ∨ st.task.state = TaskState.running)
    (hretry : 1 ≤ retrySQLTimes) :
    (onNextStage retrySQLTimes beh isR eligible now st (Except.ok [])).calls ≠ []
    ∧ ∀ c ∈ (onNextStage retrySQLTimes beh isR eligible now st (Except.ok [])).calls,
        c.task.state = TaskState.succeed ∧ c.newSubtasks = []
        ∧ c.prevState = st.task.state := by
  rcases hstate with hp | hp
  · have hred : onNextStage retrySQLTimes beh isR eligible now st (Except.ok [])
        = { task := (updateTask beh
              { st.task with
                concurrency := if st.task.concurrency = 0 then DefaultSubtaskConcurrency
                  else if st.task.concurrency > MaxSubtaskConcurrency
                    then MaxSubtaskConcurrency else st.task.concurrency,
                startTime := now, stateUpdateTime := now }
              TaskState.succeed [] nonRetrySQLTime).task,
            taskNodes := st.taskNodes,
            err := (updateTask beh
              { st.task with
                concurrency := if st.task.concurrency = 0 then DefaultSubtaskConcurrency
                  else if st.task.concurrency > MaxSubtaskConcurrency
                    then MaxSubtaskConcurrency else st.task.concurrency,
                startTime := now, stateUpdateTime := now }
              TaskState.succeed [] nonRetrySQLTime).err,
            calls := (updateTask beh
              { st.task with
                concurrency := if st.task.concurrency = 0 then DefaultSubtaskConcurrency
                  else if st.task.concurrency > MaxSubtaskConcurrency
                    then MaxSubtaskConcurrency else st.task.concurrency,
                startTime := now, stateUpdateTime := now }
              TaskState.succeed [] nonRetrySQLTime).calls } := by
      unfold onNextStage dispatchSubTask
      simp only [hp, List.isEmpty_nil, if_pos rfl, reduceIte]
      by_cases h0 : st.task.concurrency = 0 <;>
        by_cases h1 : st.task.concurrency > MaxSubtaskConcurrency <;>
        simp_all [DefaultSubtaskConcurrency, MaxSubtaskConcurrency]
    constructor
    · rw [hred]
      apply updateTask_calls_ne_nil _ _ _ _ _ _ (by decide)
      simp [hp]
      decide
    · intro c hc
      rw [hred] at hc
      have h := updateTask_calls_elem _ _ _ _ _ c hc
      subst h
      simp [hp]
  · have hred : onNextStage retrySQLTimes beh isR eligible now st (Except.ok [])
        = { task := (updateTask beh
              { st.task with
                concurrency := if st.task.concurrency = 0 then DefaultSubtaskConcurrency
                  else if st.task.concurrency > MaxSubtaskConcurrency
                    then MaxSubtaskConcurrency else st.task.concurrency,
                stateUpdateTime := now }
              TaskState.succeed [] retrySQLTimes).task,
            taskNodes := st.taskNodes,
            err := (updateTask beh
              { st.task with
                concurrency := if st.task.concurrency = 0 then DefaultSubtaskConcurrency
                  else if st.task.concurrency > MaxSubtaskConcurrency
                    then MaxSubtaskConcurrency else st.task.concurrency,
                stateUpdateTime := now }
              TaskState.succeed [] retrySQLTimes).err,
            calls := (updateTask beh
              { st.task with
                concurrency := if st.task.concurrency = 0 then DefaultSubtaskConcurrency
                  else if st.task.concurrency > MaxSubtaskConcurrency
                    then MaxSubtaskConcurrency else st.task.concurrency,
                stateUpdateTime := now }
              TaskState.succeed [] retrySQLTimes).calls } := by
      unfold onNextStage dispatchSubTask
      simp only [hp, List.isEmpty_nil, if_pos rfl, reduceIte]
      by_cases h0 : st.task.concurrency = 0 <;>
        by_cases h1 : st.task.concurrency > MaxSubtaskConcurrency <;>
        simp_all [DefaultSubtaskConcurrency, MaxSubtaskConcurrency]
    constructor
    · rw [hred]
      apply updateTask_calls_ne_nil _ _ _ _ _ _ hretry
      simp [hp]
      decide
    · intro c hc
      rw [hred] at hc
      have h := updateTask_calls_elem _ _ _ _ _ c hc
      subst h
      simp [hp]

/-- Witness for claim C6 at a concrete input: a Running task whose strategy
reports no more stages. -/
theorem empty_metas_succeed_witness :
    (({ task := sampleRunningTask, taskNodes := [] } : DispState).task.state
        = TaskState.pending
      ∨ ({ task := sampleRunningTask, taskNodes := [] } : DispState).task.state
        = TaskState.running)
    ∧ (1 : Nat) ≤ 2
    ∧ ((onNextStage 2 behOK (fun _ => true) (Except.ok [sampleNode]) 0
          { task := sampleRunningTask, taskNodes := [] } (Except.ok [])).calls ≠ []
        ∧ ∀ c ∈ (onNextStage 2 behOK (fun _ => true) (Except.ok [sampleNode]) 0
            { task := sampleRunningTask, taskNodes := [] } (Except.ok [])).calls,
            c.task.state = TaskState.succeed ∧ c.newSubtasks = []
            ∧ c.prevState
                = ({ task := sampleRunningTask, taskNodes := [] } : DispState).task.state) :=
  ⟨Or.inr (by decide), by decide,
   empty_metas_succeed 2 behOK (fun _ => true) (Except.ok [sampleNode]) 0
     { task := sampleRunningTask, taskNodes := [] } (Or.inr (by decide)) (by decide)⟩

/-- Claim C7: dispatching a non-empty meta list with an empty
eligible-instances list returns the "no available TiDB node to dispatch
subtasks" error, performs no storage write (so no task or subtask row is
written and the persisted state stays Pending), and leaves the in-memory
task state Pending. -/
theorem no_available_node_spec (retrySQLTimes : Nat) (beh : UpdateBehavior) (now : Nat)
    (st : DispState) (metas : List TaskMeta)
    (hpending : st.task.state = TaskState.pending) (hmetas : metas ≠ []) :
    (dispatchSubTask retrySQLTimes beh (Except.ok []) now st metas).err
        = some (GoError.msg "no available TiDB node to dispatch subtasks")
    ∧ (dispatchSubTask retrySQLTimes beh (Except.ok []) now st metas).calls = []
    ∧ (dispatchSubTask retrySQLTimes beh (Except.ok []) now st metas).task.state
        = TaskState.pending
    ∧ (dispatchSubTask retrySQLTimes beh (Except.ok []) now st metas).taskNodes
        = st.taskNodes := by
  have hie : metas.isEmpty = false := by
    cases metas with
    | nil => exact absurd rfl hmetas
    | cons a l => rfl
  unfold dispatchSubTask
  simp only [hpending, hie, Bool.false_eq_true, if_false, reduceIte, List.length_nil,
    if_pos rfl]
  simp

/-- Witness for claim C7 at a concrete input: a Pending task, one meta, no
eligible nodes. -/
theorem no_available_node_spec_witness :
    ({ task := sampleTask, taskNodes := ["a:1"] } : DispState).task.state
        = TaskState.pending
    ∧ ([[1]] : List TaskMeta) ≠ []
    ∧ ((dispatchSubTask 2 behOK (Except.ok []) 0
          { task := sampleTask, taskNodes := ["a:1"] } [[1]]).err
        = some (GoError.msg "no available TiDB node to dispatch subtasks")
      ∧ (dispatchSubTask 2 behOK (Except.ok []) 0
          { task := sampleTask, taskNodes := ["a:1"] } [[1]]).calls = []
      ∧ (dispatchSubTask 2 behOK (Except.ok []) 0
          { task := sampleTask, taskNodes := ["a:1"] } [[1]]).task.state
        = TaskState.pending
      ∧ (dispatchSubTask 2 behOK (Except.ok []) 0
          { task := sampleTask, taskNodes := ["a:1"] } [[1]]).taskNodes
        = ({ task := sampleTask, taskNodes := ["a:1"] } : DispState).taskNodes) :=
  ⟨by decide, by decide,
   no_available_node_spec 2 behOK 0 { task := sampleTask, taskNodes := ["a:1"] } [[1]]
     (by decide) (by decide)⟩

/-- Claim C9: in the Reverting state the driver persists the transition
Reverting to Reverted exactly when the count of subtasks in
RevertPending or Reverting is zero; with a non-zero count it calls `OnTick`,
writes nothing and keeps the task unchanged (a failed count query also
writes nothing and skips `OnTick`). -/
theorem onReverting_spec (retrySQLTimes : Nat) (beh : UpdateBehavior)
    (st : DispState) (cntResult : Except GoError Nat)
    (hstate : st.task.state = TaskState.reverting) (hretry : 1 ≤ retrySQLTimes) :
    ((onReverting retrySQLTimes beh st cntResult).calls ≠ []
        ↔ cntResult = Except.ok 0)
    ∧ (∀ c ∈ (onReverting retrySQLTimes beh st cntResult).calls,
        c.task.state = TaskState.reverted ∧ c.newSubtasks = []
        ∧ c.prevState = TaskState.reverting)
    ∧ (∀ n, cntResult = Except.ok (n + 1) →
        (onReverting retrySQLTimes beh st cntResult).calls = []
        ∧ (onReverting retrySQLTimes beh st cntResult).onTickCalled = true
        ∧ (onReverting retrySQLTimes beh st cntResult).task = st.task
        ∧ (onReverting retrySQLTimes beh st cntResult).err = none) := by
  have hv : VerifyTaskStateTransform st.task.state TaskState.reverted = true := by
    simp [hstate]
    decide
  refine ⟨?_, ?_, ?_⟩
  · constructor
    · intro hne
      match cntResult with
      | Except.error e => simp [onReverting] at hne
      | Except.ok 0 => rfl
      | Except.ok (n + 1) => simp [onReverting] at hne
    · intro hcnt
      subst hcnt
      simp only [onReverting, if_pos rfl, reduceIte]
      exact updateTask_calls_ne_nil _ _ _ _ _ hv hretry
  · intro c hc
    match cntResult with
    | Except.error e => simp [onReverting] at hc
    | Except.ok 0 =>
      simp only [onReverting, if_pos rfl, reduceIte] at hc
      have h := updateTask_calls_elem _ _ _ _ _ c hc
      subst h
      simp [hstate]
    | Except.ok (n + 1) => simp [onReverting] at hc
  · intro n hcnt
    subst hcnt
    simp [onReverting]

/-- Witness for claim C9 at concrete inputs: a Reverting task with a zero
and with a non-zero pending-revert subtask count. -/
theorem onReverting_spec_witness :
    ({ task := sampleRevertingTask, taskNodes := [] } : DispState).task.state
        = TaskState.reverting
    ∧ (1 : Nat) ≤ 2
    ∧ (((onReverting 2 behOK { task := sampleRevertingTask, taskNodes := [] }
            (Except.ok 0)).calls ≠ [] ↔ (Except.ok 0 : Except GoError Nat) = Except.ok 0)
        ∧ (∀ c ∈ (onReverting 2 behOK { task := sampleRevertingTask, taskNodes := [] }
              (Except.ok 0)).calls,
            c.task.state = TaskState.reverted ∧ c.newSubtasks = []
            ∧ c.prevState = TaskState.reverting)
        ∧ (∀ n, (Except.ok 0 : Except GoError Nat) = Except.ok (n + 1) →
            (onReverting 2 behOK { task := sampleRevertingTask, taskNodes := [] }
              (Except.ok 0)).calls = []
            ∧ (onReverting 2 behOK { task := sampleRevertingTask, taskNodes := [] }
                (Except.ok 0)).onTickCalled = true
            ∧ (onReverting 2 behOK { task := sampleRevertingTask, taskNodes := [] }
                (Except.ok 0)).task
              = ({ task := sampleRevertingTask, taskNodes := [] } : DispState).task
            ∧ (onReverting 2 behOK { task := sampleRevertingTask, taskNodes := [] }
                (Except.ok 0)).err = none)) :=
  ⟨by decide, by decide,
   onReverting_spec 2 behOK { task := sampleRevertingTask, taskNodes := [] }
     (Except.ok 0) (by decide) (by decide)⟩

/-- Counting multiples of a residue class inside `range n`: there are
`n / k` full blocks plus one extra when `j` falls inside the final partial
block. -/
theorem countP_range_mod (k j n : Nat) (hk : 0 < k) (hj : j < k) :
    (List.range n).countP (fun i => i % k == j)
      = n / k + if j < n % k then 1 else 0 := by
  have h := Nat.count_modEq_card n hk j
  rw [Nat.mod_eq_of_lt hj] at h
  rw [← h, Nat.count]
  apply List.countP_congr
  intro i _
  simp [Nat.ModEq, Nat.mod_eq_of_lt hj]

/-- When the eligible instances render to pairwise distinct exec IDs, the
number of subtasks assigned to the node at index `j` equals the number of
meta indices congruent to `j` modulo the node count. -/
theorem assignSubtasks_countP (task : Task) (serverNodes : List ServerInfo)
    (metas : List TaskMeta) (j : Nat) (hj : j < serverNodes.length)
    (hnodup : (serverNodes.map fun n => GenerateExecID n.ip n.port).Nodup) :
    (assignSubtasks task serverNodes metas).countP
        (fun s => s.schedulerID
          == GenerateExecID (serverNodes.getD j default).ip
               (serverNodes.getD j default).port)
      = (List.range metas.length).countP (fun i => i % serverNodes.length == j) := by
  have hK : 0 < serverNodes.length := Nat.lt_of_le_of_lt (Nat.zero_le j) hj
  have hmap : ∀ (p : Nat) (hp : p < serverNodes.length),
      GenerateExecID (serverNodes.getD p default).ip (serverNodes.getD p default).port
        = (serverNodes.map fun n => GenerateExecID n.ip n.port).get
            ⟨p, by simpa using hp⟩ := by
    intro p hp
    rw [List.getD_eq_getElem _ _ hp, List.get_eq_getElem]
    simp
  unfold assignSubtasks
  rw [List.countP_map]
  apply List.countP_congr
  intro i _
  have hiK : i % serverNodes.length < serverNodes.length := Nat.mod_lt _ hK
  simp only [Function.comp_apply, NewSubtask, beq_iff_eq]
  rw [hmap _ hiK, hmap _ hj, hnodup.get_inj_iff, Fin.mk_eq_mk]

/-- Claim C5: `dispatchSubTask` assigns meta `i` to the eligible instance at
index `i mod K`; every assigned scheduler ID is the exec ID of an eligible
instance; when the eligible exec IDs are pairwise distinct the per-node
subtask counts differ by at most one; and the subtask rows handed to the
storage write are exactly the ones produced by this round-robin
assignment. -/
theorem dispatch_round_robin_spec (task : Task) (serverNodes : List ServerInfo)
    (metas : List TaskMeta) (hK : 0 < serverNodes.length) :
    (assignSubtasks task serverNodes metas).length = metas.length
    ∧ (∀ i, i < metas.length →
        (assignSubtasks task serverNodes metas).getD i default
          = NewSubtask task.id task.taskType
              (GenerateExecID (serverNodes.getD (i % serverNodes.length) default).ip
                (serverNodes.getD (i % serverNodes.length) default).port)
              (metas.getD i []))
    ∧ (∀ s ∈ assignSubtasks task serverNodes metas,
        s.schedulerID ∈ serverNodes.map fun n => GenerateExecID n.ip n.port)
    ∧ ((serverNodes.map fun n => GenerateExecID n.ip n.port).Nodup →
        ∀ j j', j < serverNodes.length → j' < serverNodes.length →
          (assignSubtasks task serverNodes metas).countP
              (fun s => s.schedulerID
                == GenerateExecID (serverNodes.getD j default).ip
                     (serverNodes.getD j default).port)
            ≤ (assignSubtasks task serverNodes metas).countP
              (fun s => s.schedulerID
                == GenerateExecID (serverNodes.getD j' default).ip
                     (serverNodes.getD j' default).port) + 1)
    ∧ (∀ (retrySQLTimes : Nat) (beh : UpdateBehavior) (now : Nat)
        (taskNodes : List String),
        ∀ c ∈ (dispatchSubTask retrySQLTimes beh (Except.ok serverNodes) now
            { task := task, taskNodes := taskNodes } metas).calls,
          ∃ t2 : Task, c.newSubtasks = assignSubtasks t2 serverNodes metas) := by
  refine ⟨?_, ?_, ?_, ?_, ?_⟩
  · simp [assignSubtasks]
  · intro i hi
    unfold assignSubtasks
    rw [List.getD_eq_getElem _ _ (by simpa using hi)]
    simp
  · intro s hs
    unfold assignSubtasks at hs
    rw [List.mem_map] at hs
    obtain ⟨i, hi, rfl⟩ := hs
    rw [List.mem_range] at hi
    have hpos : i % serverNodes.length < serverNodes.length := Nat.mod_lt _ hK
    simp only [NewSubtask]
    refine List.mem_map.mpr ⟨serverNodes.getD (i % serverNodes.length) default, ?_, rfl⟩
    rw [List.getD_eq_getElem _ _ hpos]
    exact List.getElem_mem _
  · intro hnodup j j' hj hj'
    rw [assignSubtasks_countP task serverNodes metas j hj hnodup,
        assignSubtasks_countP task serverNodes metas j' hj' hnodup,
        countP_range_mod _ _ _ hK hj, countP_range_mod _ _ _ hK hj']
    split_ifs <;> omega
  · intro retrySQLTimes beh now taskNodes c hc
    cases metas with
    | nil =>
      unfold dispatchSubTask at hc
      simp only [List.isEmpty_nil, if_pos rfl, reduceIte] at hc
      have h := updateTask_calls_elem _ _ _ _ _ c hc
      subst h
      exact ⟨task, by simp [assignSubtasks]⟩
    | cons m ms =>
      unfold dispatchSubTask at hc
      simp only [List.isEmpty_cons, Bool.false_eq_true, if_false, reduceIte,
        if_neg (Nat.pos_iff_ne_zero.mp hK)] at hc
      have h := updateTask_calls_elem _ _ _ _ _ c hc
      subst h
      exact ⟨_, rfl⟩

/-- Witness for claim C5 at a concrete input: three metas over two eligible
nodes with distinct exec IDs. -/
theorem dispatch_round_robin_spec_witness :
    0 < ([sampleNode, sampleNode2] : List ServerInfo).length
    ∧ ((assignSubtasks sampleTask [sampleNode, sampleNode2] [[1], [2], [3]]).length
          = ([[1], [2], [3]] : List TaskMeta).length
      ∧ (∀ i, i < ([[1], [2], [3]] : List TaskMeta).length →
          (assignSubtasks sampleTask [sampleNode, sampleNode2] [[1], [2], [3]]).getD i default
            = NewSubtask sampleTask.id sampleTask.taskType
                (GenerateExecID
                  (([sampleNode, sampleNode2] : List ServerInfo).getD
                    (i % ([sampleNode, sampleNode2] : List ServerInfo).length) default).ip
                  (([sampleNode, sampleNode2] : List ServerInfo).getD
                    (i % ([sampleNode, sampleNode2] : List ServerInfo).length) default).port)
                (([[1], [2], [3]] : List TaskMeta).getD i []))
      ∧ (∀ s ∈ assignSubtasks sampleTask [sampleNode, sampleNode2] [[1], [2], [3]],
          s.schedulerID
            ∈ ([sampleNode, sampleNode2] : List ServerInfo).map
                fun n => GenerateExecID n.ip n.port)
      ∧ ((([sampleNode, sampleNode2] : List ServerInfo).map
            fun n => GenerateExecID n.ip n.port).Nodup →
          ∀ j j', j < ([sampleNode, sampleNode2] : List ServerInfo).length →
            j' < ([sampleNode, sampleNode2] : List ServerInfo).length →
            (assignSubtasks sampleTask [sampleNode, sampleNode2] [[1], [2], [3]]).countP
                (fun s => s.schedulerID
                  == GenerateExecID
                       (([sampleNode, sampleNode2] : List ServerInfo).getD j default).ip
                       (([sampleNode, sampleNode2] : List ServerInfo).getD j default).port)
              ≤ (assignSubtasks sampleTask [sampleNode, sampleNode2] [[1], [2], [3]]).countP
                (fun s => s.schedulerID
                  == GenerateExecID
                       (([sampleNode, sampleNode2] : List ServerInfo).getD j' default).ip
                       (([sampleNode, sampleNode2] : List ServerInfo).getD j' default).port)
                + 1)
      ∧ (∀ (retrySQLTimes : Nat) (beh : UpdateBehavior) (now : Nat)
          (taskNodes : List String),
          ∀ c ∈ (dispatchSubTask retrySQLTimes beh
              (Except.ok [sampleNode, sampleNode2]) now
              { task := sampleTask, taskNodes := taskNodes } [[1], [2], [3]]).calls,
            ∃ t2 : Task,
              c.newSubtasks = assignSubtasks t2 [sampleNode, sampleNode2] [[1], [2], [3]])) :=
  ⟨by decide,
   dispatch_round_robin_spec sampleTask [sampleNode, sampleNode2] [[1], [2], [3]]
     (by decide)⟩

/-- Claim C1: `VerifyTaskStateTransform` accepts every identity pair, accepts a
distinct pair exactly when it is one of the fifteen pairs listed by the
specification, rejects every other distinct pair, and the six sink states
(Succeed, Failed, Reverted, Canceled, RevertFailed, RevertPending) have no
outgoing transition to a distinct state. -/
theorem verifyTaskStateTransform_characterization :
    (∀ s : TaskState, VerifyTaskStateTransform s s = true)
    ∧ (∀ src dst : TaskState,
        VerifyTaskStateTransform src dst
          = (src == dst || specLegalPairs.contains (src, dst)))
    ∧ (sinkStates.all fun src =>
        allTaskStates.all fun dst =>
          src == dst || !VerifyTaskStateTransform src dst) = true := by
  refine ⟨by decide, by decide, by decide⟩

end DistDispatch
